import Mathlib

/-!
Shallow embedding of the token-authenticated HTTP client core of the
pi-network-linux-client repository (src/src/api/auth.js): the axios client
`authClient` with its request interceptor (attach bearer token), its response
interceptor (refresh-on-401 with single retry), and the `setTokens`,
`clearTokens`, `getAuthToken`, `getRefreshToken`, `refreshAuthToken`, `login`
and `logout` operations.

The transport boundary (axios hitting the network) is modelled by a `Server`
value: `serve` maps a fully-built request config to `none` (network error) or
`some` HTTP response, and `refreshServe` is the fixed `/auth/refresh` endpoint
reached by the plain `axios.post` inside `refreshAuthToken` (which bypasses
`authClient` and hence the interceptors). Executions record the configs
actually handed to the transport and the refresh calls made, so that counting
claims (one retry, one refresh, no recursive refresh) can be stated.

JavaScript truthiness of the token strings (`if (authToken)` and friends) is
modelled by `truthy`: a string field is truthy when present and non-empty.
-/

namespace PiClient

/-- Parsed JSON response body: the fields the client inspects (`data.token`,
`data.refreshToken`) plus an opaque payload for everything else. -/
structure RespData where
  token : Option String := none
  refreshToken : Option String := none
  payload : String := ""
deriving DecidableEq

/-- An HTTP response: status code and parsed body. -/
structure Response where
  status : Nat
  data : RespData
deriving DecidableEq

/-- A request config, as built by callers and mutated by the interceptors:
axios `config` with the `_retry` marker used by the response interceptor. -/
structure Config where
  method : String
  path : String
  headers : List (String × String) := []
  body : List (String × String) := []
  retried : Bool := false
deriving DecidableEq

/-- An axios error: `response` is `none` for transport-level failures and
`some` for HTTP error statuses; `config` is the request that failed. -/
structure AxiosError where
  response : Option Response
  config : Config
deriving DecidableEq

/-- The module-level token state of auth.js (`authToken`, `refreshToken`). -/
structure AuthState where
  authToken : Option String
  refreshToken : Option String
deriving DecidableEq

/-- The transport boundary: what the remote server answers. `serve` receives
the config handed to axios by the intercepted client; `refreshServe` is the
fixed refresh endpoint, receiving the refresh token posted to it. `none`
models a transport-level (network) failure. -/
structure Server where
  serve : Config → Option Response
  refreshServe : Option String → Option Response

/-- Log of the externally visible actions of one execution: the configs sent
through the intercepted client's transport, and the refresh calls made to the
refresh endpoint (each entry is the refresh token that was posted). -/
structure ExecLog where
  sentConfigs : List Config := []
  refreshCalls : List (Option String) := []
deriving DecidableEq

/-- Outcome of a promise: resolved with a response or rejected with an error. -/
inductive ReqResult where
  | resolved (resp : Response)
  | rejected (err : AxiosError)
deriving DecidableEq

/-- Result of running a request: the settled promise, the token state after,
and the log of transport actions. -/
structure RunOut where
  result : ReqResult
  state : AuthState
  log : ExecLog
deriving DecidableEq

/-- JavaScript truthiness of an optional string field: present and non-empty. -/
def truthy : Option String → Bool
  | none => false
  | some s => decide (s ≠ "")

/-- Axios default `validateStatus`: 2xx counts as success. -/
def isSuccess (status : Nat) : Bool :=
  decide (200 ≤ status) && decide (status < 300)

/-- Header lookup (first binding wins, as in a JS object). -/
def getHeader (hs : List (String × String)) (k : String) : Option String :=
  (hs.find? fun p => p.1 == k).map fun p => p.2

/-- JS `headers[k] = v`: replace the binding in place if present, else append. -/
def setHeader (hs : List (String × String)) (k v : String) : List (String × String) :=
  if hs.any fun p => p.1 == k then
    hs.map fun p => if p.1 == k then (k, v) else p
  else hs ++ [(k, v)]

/-- setTokens (auth.js 85-88): store both tokens. -/
def setTokens (_st : AuthState) (token refresh : String) : AuthState :=
  ⟨some token, some refresh⟩

/-- clearTokens (auth.js 93-96): wipe both tokens. -/
def clearTokens (_st : AuthState) : AuthState :=
  ⟨none, none⟩

/-- getAuthToken (auth.js 102-104). -/
def getAuthToken (st : AuthState) : Option String :=
  st.authToken

/-- getRefreshToken (auth.js 110-112). -/
def getRefreshToken (st : AuthState) : Option String :=
  st.refreshToken

/-- Request interceptor (auth.js 26-37): if an auth token is held, set
`Authorization: Bearer <token>` on the outgoing config. -/
def requestInterceptor (st : AuthState) (config : Config) : Config :=
  if truthy st.authToken then
    { config with
        headers := setHeader config.headers "Authorization"
          ("Bearer " ++ st.authToken.getD "") }
  else config

/-- refreshAuthToken (auth.js 118-123): a plain `axios.post` of the stored
refresh token to the fixed refresh endpoint, NOT going through `authClient`
(so no interceptors run for it). -/
def refreshAuthToken (srv : Server) (st : AuthState) : Option Response :=
  srv.refreshServe st.refreshToken

/-- Response interceptor error handler (auth.js 46-77), with the recursive
`authClient(originalRequest)` dispatch abstracted as `retry`. On a 401 that
has not been retried while a refresh token is held: mark the config retried,
call `refreshAuthToken`; on a truthy `response.data.token` store the new
access token, rewrite the Authorization header and re-dispatch; on a thrown
refresh (network error or non-2xx) clear the tokens and reject the original
error; otherwise (including a 2xx refresh body with no truthy token) fall
through and reject the original error with tokens untouched. -/
def handleAuthErrorWith (retry : AuthState → ExecLog → Config → RunOut)
    (srv : Server) (st : AuthState) (log : ExecLog) (error : AxiosError) : RunOut :=
  match error.response with
  | some resp =>
    if resp.status == 401 && !error.config.retried && truthy st.refreshToken then
      let originalRequest := { error.config with retried := true }
      let log := { log with refreshCalls := log.refreshCalls ++ [st.refreshToken] }
      match refreshAuthToken srv st with
      | none =>
        ⟨.rejected { error with config := originalRequest }, clearTokens st, log⟩
      | some rresp =>
        if isSuccess rresp.status then
          if truthy rresp.data.token then
            let newTok := rresp.data.token.getD ""
            let st := { st with authToken := some newTok }
            let originalRequest := { originalRequest with
                headers := setHeader originalRequest.headers "Authorization"
                  ("Bearer " ++ newTok) }
            retry st log originalRequest
          else
            ⟨.rejected { error with config := originalRequest }, st, log⟩
        else
          ⟨.rejected { error with config := originalRequest }, clearTokens st, log⟩
    else
      ⟨.rejected error, st, log⟩
  | none => ⟨.rejected error, st, log⟩

/-- Dispatch through `authClient` (auth.js 15-78): run the request
interceptor, hand the config to the transport, and on a non-2xx or network
failure run the response interceptor's error handler, whose retry re-enters
this same dispatch. `fuel` bounds the (in fact once-only) retry recursion. -/
def sendAuth (srv : Server) : Nat → AuthState → ExecLog → Config → RunOut
  | 0, st, log, config => ⟨.rejected ⟨none, config⟩, st, log⟩
  | fuel + 1, st, log, config =>
    let sent := requestInterceptor st config
    let log := { log with sentConfigs := log.sentConfigs ++ [sent] }
    match srv.serve sent with
    | none => handleAuthErrorWith (sendAuth srv fuel) srv st log ⟨none, sent⟩
    | some resp =>
      if isSuccess resp.status then ⟨.resolved resp, st, log⟩
      else handleAuthErrorWith (sendAuth srv fuel) srv st log ⟨some resp, sent⟩

/-- The response interceptor's error handler as installed on `authClient`:
its retry continuation is a fresh dispatch through the client. -/
def handleAuthError (srv : Server) (fuel : Nat) :
    AuthState → ExecLog → AxiosError → RunOut :=
  handleAuthErrorWith (sendAuth srv fuel) srv

/-- A fresh request issued through the shared client: a new config is not yet
marked retried, and fuel 2 covers the one transport call plus the single
refresh-triggered retry. -/
def request (srv : Server) (st : AuthState) (config : Config) : RunOut :=
  sendAuth srv 2 st ⟨[], []⟩ { config with retried := false }

/-- The config the request interceptor produces for a fresh request. -/
def firstSent (st : AuthState) (config : Config) : Config :=
  requestInterceptor st { config with retried := false }

/-- The original request as rewritten by the 401 handler before re-dispatch:
marked retried, Authorization rewritten to the freshly obtained token. -/
def retryConfig (st : AuthState) (config : Config) (nt : String) : Config :=
  { firstSent st config with
      retried := true,
      headers := setHeader (firstSent st config).headers "Authorization"
        ("Bearer " ++ nt) }

/-- The config actually sent for the retried request (the request interceptor
runs again over the rewritten original). -/
def secondSent (st : AuthState) (config : Config) (nt : String) : Config :=
  requestInterceptor { st with authToken := some nt } (retryConfig st config nt)

deriving instance DecidableEq for Except

/-- Result of a top-level auth operation (`login` / `logout`): the value the
caller gets (or the error thrown), the token state after, and the log. -/
structure CallOut where
  result : Except AxiosError RespData
  state : AuthState
  log : ExecLog
deriving DecidableEq

/-- The config `login` posts through `authClient` (auth.js 133-136). -/
def loginConfig (username password : String) : Config :=
  { method := "POST", path := "/auth/login",
    body := [("username", username), ("password", password)] }

/-- login (auth.js 131-148): POST credentials through `authClient`; when the
response body holds truthy `token` and `refreshToken`, store both via
`setTokens`; return the body, or rethrow the error. -/
def login (srv : Server) (st : AuthState) (username password : String) : CallOut :=
  let out := request srv st (loginConfig username password)
  match out.result with
  | .resolved resp =>
    if truthy resp.data.token && truthy resp.data.refreshToken then
      ⟨.ok resp.data,
       setTokens out.state (resp.data.token.getD "") (resp.data.refreshToken.getD ""),
       out.log⟩
    else ⟨.ok resp.data, out.state, out.log⟩
  | .rejected e => ⟨.error e, out.state, out.log⟩

/-- The config `logout` posts through `authClient` (auth.js 156). -/
def logoutConfig : Config :=
  { method := "POST", path := "/auth/logout" }

/-- logout (auth.js 154-166): POST through `authClient`; clear the tokens
whether the call resolves or throws, then return the body or rethrow. -/
def logout (srv : Server) (st : AuthState) : CallOut :=
  let out := request srv st logoutConfig
  match out.result with
  | .resolved resp => ⟨.ok resp.data, clearTokens out.state, out.log⟩
  | .rejected e => ⟨.error e, clearTokens out.state, out.log⟩

/-- Two 401-failed requests whose error handlers run one after the other over
the shared token state: the serialization of two concurrent 401s in which the
first handler (refresh included) completes before the second starts - the
schedule most favourable to refresh coalescing. -/
def handleTwo (srv : Server) (fuel : Nat) (st : AuthState) (e1 e2 : AxiosError) :
    RunOut × RunOut :=
  let o1 := handleAuthError srv fuel st ⟨[], []⟩ e1
  let o2 := handleAuthError srv fuel o1.state o1.log e2
  (o1, o2)

/-! Concrete values for the spec's scenarios (spec.md section 8): an
authenticated state holding access token A1 and refresh token R1, the
wallet-balance request, and servers realizing the various refresh outcomes. -/

/-- State after `setTokens "A1" "R1"`. -/
def demoSt : AuthState := ⟨some "A1", some "R1"⟩

/-- The wallet-balance request of the spec's scenarios. -/
def balanceConfig : Config := { method := "GET", path := "/wallet/balance" }

/-- A second, distinct request, for the concurrent-401 scenario. -/
def profileConfig : Config := { method := "GET", path := "/user/profile" }

/-- Server of the token-rotation scenario: answers 401 to anything not
carrying the rotated token A2, 200 otherwise; the refresh endpoint rotates to
A2 and returns a fresh refresh token R2. -/
def demoSrv : Server :=
  { serve := fun c =>
      if getHeader c.headers "Authorization" = some "Bearer A2" then
        some ⟨200, { payload := "ok" }⟩
      else some ⟨401, {}⟩,
    refreshServe := fun _ =>
      some ⟨200, { token := some "A2", refreshToken := some "R2" }⟩ }

/-- Server answering 401 everywhere whose refresh endpoint returns 2xx with a
body missing the expected token fields. -/
def srvMalformed : Server :=
  { serve := fun _ => some ⟨401, {}⟩,
    refreshServe := fun _ => some ⟨200, {}⟩ }

/-- Server answering 401 everywhere whose refresh endpoint rejects with 403
(the invalid-refresh-token scenario of the spec). -/
def srv403 : Server :=
  { serve := fun _ => some ⟨401, {}⟩,
    refreshServe := fun _ => some ⟨403, {}⟩ }

/-- Server accepting everything (in particular the login POST, answered with
a token pair); its refresh endpoint is unreachable. -/
def srvLoginOk : Server :=
  { serve := fun _ => some ⟨200, { token := some "T", refreshToken := some "RT" }⟩,
    refreshServe := fun _ => none }

/-- The 401 error of the first concurrent request, as built by axios: the
config that was sent (bearer A1 attached, not yet retried). -/
def e1c : AxiosError := ⟨some ⟨401, {}⟩, firstSent demoSt balanceConfig⟩

/-- The 401 error of the second concurrent request. -/
def e2c : AxiosError := ⟨some ⟨401, {}⟩, firstSent demoSt profileConfig⟩

/-! Helper lemmas about the dispatch pipeline. -/

/-- The request interceptor only touches headers: the retried marker is kept. -/
lemma requestInterceptor_retried (st : AuthState) (c : Config) :
    (requestInterceptor st c).retried = c.retried := by
  unfold requestInterceptor
  split <;> rfl

/-- Unfolding of `sendAuth` with fuel left. -/
lemma sendAuth_succ (srv : Server) (fuel : Nat) (st : AuthState) (log : ExecLog)
    (c : Config) :
    sendAuth srv (fuel + 1) st log c =
      match srv.serve (requestInterceptor st c) with
      | none =>
        handleAuthErrorWith (sendAuth srv fuel) srv st
          { log with sentConfigs := log.sentConfigs ++ [requestInterceptor st c] }
          ⟨none, requestInterceptor st c⟩
      | some resp =>
        if isSuccess resp.status then
          ⟨.resolved resp, st,
           { log with sentConfigs := log.sentConfigs ++ [requestInterceptor st c] }⟩
        else
          handleAuthErrorWith (sendAuth srv fuel) srv st
            { log with sentConfigs := log.sentConfigs ++ [requestInterceptor st c] }
            ⟨some resp, requestInterceptor st c⟩ :=
  rfl

/-- A dispatch of a config already marked retried never touches the token
state, never calls the refresh endpoint, and sends at most one request: the
response interceptor's guard `!originalRequest._retry` is false for it. -/
lemma sendAuth_retried_run (srv : Server) (fuel : Nat) (st : AuthState) (log : ExecLog)
    (c : Config) (hc : c.retried = true) :
    (sendAuth srv fuel st log c).state = st ∧
    (sendAuth srv fuel st log c).log.refreshCalls = log.refreshCalls ∧
    (sendAuth srv fuel st log c).log.sentConfigs.length ≤ log.sentConfigs.length + 1 := by
  cases fuel with
  | zero => exact ⟨rfl, rfl, Nat.le_succ _⟩
  | succ n =>
    rw [sendAuth_succ]
    have hr : (requestInterceptor st c).retried = true := by
      rw [requestInterceptor_retried]; exact hc
    cases hserve : srv.serve (requestInterceptor st c) with
    | none =>
      simp [handleAuthErrorWith]
    | some resp =>
      by_cases hs : isSuccess resp.status
      · simp [hs]
      · simp [hs, handleAuthErrorWith, hr]

/-- Any single dispatch sends at most two requests to the transport and makes
at most one call to the refresh endpoint, whatever the server answers. -/
lemma sendAuth_growth (srv : Server) (fuel : Nat) (st : AuthState) (log : ExecLog)
    (c : Config) :
    (sendAuth srv fuel st log c).log.sentConfigs.length ≤ log.sentConfigs.length + 2 ∧
    (sendAuth srv fuel st log c).log.refreshCalls.length ≤ log.refreshCalls.length + 1 := by
  cases fuel with
  | zero => exact ⟨Nat.le_add_right _ _, Nat.le_add_right _ _⟩
  | succ n =>
    rw [sendAuth_succ]
    cases hserve : srv.serve (requestInterceptor st c) with
    | none =>
      constructor <;> simp [handleAuthErrorWith]
    | some resp =>
      by_cases hs : isSuccess resp.status
      · constructor <;> simp [hs]
      · simp only [hs, if_false, Bool.false_eq_true]
        unfold handleAuthErrorWith
        simp only []
        split
        · cases href : refreshAuthToken srv st with
          | none => constructor <;> simp
          | some rresp =>
            simp only [href]
            by_cases hrs : isSuccess rresp.status
            · simp only [hrs, if_true]
              by_cases ht : truthy rresp.data.token
              · simp only [ht, if_true]
                have hret := sendAuth_retried_run srv n
                  { st with authToken := some (rresp.data.token.getD "") }
                  { log with
                      sentConfigs := log.sentConfigs ++ [requestInterceptor st c],
                      refreshCalls := log.refreshCalls ++ [st.refreshToken] }
                  { requestInterceptor st c with
                      retried := true,
                      headers := setHeader (requestInterceptor st c).headers
                        "Authorization" ("Bearer " ++ rresp.data.token.getD "") }
                  rfl
                constructor
                · have := hret.2.2
                  simp at this ⊢
                  omega
                · have := hret.2.1
                  simp [this]
              · simp only [ht, Bool.false_eq_true, if_false]
                constructor <;> simp
            · simp only [hrs, Bool.false_eq_true, if_false]
              constructor <;> simp
        · constructor <;> simp

/-- Setting a header that was absent makes it present with the given value. -/
lemma getHeader_setHeader_of_none (hs : List (String × String)) (k v : String)
    (h : getHeader hs k = none) :
    getHeader (setHeader hs k v) k = some v := by
  unfold getHeader at h ⊢
  have hfind : hs.find? (fun p => p.1 == k) = none := by
    cases hf : hs.find? fun p => p.1 == k with
    | none => rfl
    | some p => rw [hf] at h; simp at h
  have hany : (hs.any fun p => p.1 == k) = false := by
    rw [List.any_eq_false]
    intro p hp
    have := List.find?_eq_none.mp hfind p hp
    simpa using this
  unfold setHeader
  rw [hany]
  simp only [Bool.false_eq_true, if_false]
  rw [List.find?_append, hfind]
  simp

/-- A dispatch of a config already marked retried only ever appends its own
sent config to the log. -/
lemma sendAuth_retried_prefix (srv : Server) (fuel : Nat) (st : AuthState)
    (log : ExecLog) (c : Config) (hc : c.retried = true) :
    ∃ t, (sendAuth srv fuel st log c).log.sentConfigs = log.sentConfigs ++ t := by
  cases fuel with
  | zero => exact ⟨[], by simp [sendAuth]⟩
  | succ n =>
    rw [sendAuth_succ]
    have hr : (requestInterceptor st c).retried = true := by
      rw [requestInterceptor_retried]; exact hc
    cases hserve : srv.serve (requestInterceptor st c) with
    | none => exact ⟨[requestInterceptor st c], by simp [handleAuthErrorWith]⟩
    | some resp =>
      by_cases hs : isSuccess resp.status
      · exact ⟨[requestInterceptor st c], by simp [hs]⟩
      · exact ⟨[requestInterceptor st c], by simp [hs, handleAuthErrorWith, hr]⟩

/-- A dispatch of a retried config whose incoming log holds exactly one sent
config keeps that config at the head of the sent log. -/
lemma head_of_retried_dispatch (srv : Server) (fuel : Nat) (st : AuthState)
    (log : ExecLog) (c sent : Config) (hc : c.retried = true)
    (hlog : log.sentConfigs = [sent]) :
    ((sendAuth srv fuel st log c).log.sentConfigs).head? = some sent := by
  obtain ⟨t, hteq⟩ := sendAuth_retried_prefix srv fuel st log c hc
  rw [hteq, hlog]
  rfl

/-- The first config a fresh request hands to the transport is exactly the
output of the request interceptor on it. -/
lemma request_sent_head (srv : Server) (st : AuthState) (config : Config) :
    ((request srv st config).log.sentConfigs).head? = some (firstSent st config) := by
  unfold request firstSent
  rw [sendAuth_succ]
  cases hserve : srv.serve (requestInterceptor st { config with retried := false }) with
  | none => simp [handleAuthErrorWith]
  | some resp =>
    by_cases hs : isSuccess resp.status
    · simp [hs]
    · simp only [hs, Bool.false_eq_true, if_false]
      unfold handleAuthErrorWith
      simp only []
      split
      · cases href : refreshAuthToken srv st with
        | none => simp
        | some rresp =>
          simp only [href]
          by_cases hrs : isSuccess rresp.status
          · simp only [hrs, if_true]
            by_cases ht : truthy rresp.data.token
            · simp only [ht, if_true]
              exact head_of_retried_dispatch srv 1 _ _ _ _ rfl rfl
            · simp [ht]
          · simp [hrs]
      · simp

/-- Characterization of the response interceptor's error handler on a fresh
401 while a (truthy) refresh token is held: the four refresh outcomes. -/
lemma handle_401_fresh (srv : Server) (fuel : Nat) (st : AuthState) (log : ExecLog)
    (c : Config) (d : RespData) (r : String)
    (hc : c.retried = false) (hrt : st.refreshToken = some r) (hr : r ≠ "") :
    handleAuthError srv fuel st log ⟨some ⟨401, d⟩, c⟩ =
      match srv.refreshServe (some r) with
      | none =>
        ⟨.rejected ⟨some ⟨401, d⟩, { c with retried := true }⟩, clearTokens st,
         { log with refreshCalls := log.refreshCalls ++ [some r] }⟩
      | some rresp =>
        if isSuccess rresp.status then
          if truthy rresp.data.token then
            sendAuth srv fuel { st with authToken := some (rresp.data.token.getD "") }
              { log with refreshCalls := log.refreshCalls ++ [some r] }
              { c with
                  retried := true,
                  headers := setHeader c.headers "Authorization"
                    ("Bearer " ++ rresp.data.token.getD "") }
          else
            ⟨.rejected ⟨some ⟨401, d⟩, { c with retried := true }⟩, st,
             { log with refreshCalls := log.refreshCalls ++ [some r] }⟩
        else
          ⟨.rejected ⟨some ⟨401, d⟩, { c with retried := true }⟩, clearTokens st,
           { log with refreshCalls := log.refreshCalls ++ [some r] }⟩ := by
  unfold handleAuthError handleAuthErrorWith refreshAuthToken
  rw [hrt]
  have htr : truthy (some r) = true := by simp [truthy, hr]
  simp only [htr, hc, Bool.not_false, Bool.and_true, beq_self_eq_true, Bool.and_self,
    if_true]

/-- The error handler propagates the error untouched whenever its guard
(401, not yet retried, refresh token held) fails. -/
lemma handle_guard_false (srv : Server) (fuel : Nat) (st : AuthState) (log : ExecLog)
    (e : AxiosError) (resp : Response) (hresp : e.response = some resp)
    (hguard : (resp.status == 401 && !e.config.retried && truthy st.refreshToken) = false) :
    handleAuthError srv fuel st log e = ⟨.rejected e, st, log⟩ := by
  unfold handleAuthError handleAuthErrorWith
  rw [hresp]
  simp [hguard]

/-- A fresh request answered 401 by the transport reduces to the response
interceptor's error handler on that 401. -/
lemma request_401_step (srv : Server) (st : AuthState) (config : Config) (d401 : RespData)
    (h1 : srv.serve (firstSent st config) = some ⟨401, d401⟩) :
    request srv st config =
      handleAuthError srv 1 st ⟨[firstSent st config], []⟩
        ⟨some ⟨401, d401⟩, firstSent st config⟩ := by
  unfold request
  rw [sendAuth_succ]
  simp only [firstSent] at h1
  simp only [h1]
  have hs401 : isSuccess (Response.mk 401 d401).status = false := rfl
  simp only [hs401, Bool.false_eq_true, if_false]
  rfl

/-- On a fresh 401 with a held refresh token, when the refresh endpoint
answers 2xx with a truthy token, the handler stores that token and
re-dispatches the original request marked retried with the new bearer. -/
lemma handle_401_refresh_success (srv : Server) (fuel : Nat) (st : AuthState)
    (log : ExecLog) (c : Config) (d : RespData) (r : String) (rresp : Response)
    (nt : String) (hc : c.retried = false) (hrt : st.refreshToken = some r)
    (hr : r ≠ "") (hrefresh : srv.refreshServe (some r) = some rresp)
    (hrs : isSuccess rresp.status = true) (htok : rresp.data.token = some nt)
    (hnt : nt ≠ "") :
    handleAuthError srv fuel st log ⟨some ⟨401, d⟩, c⟩ =
      sendAuth srv fuel { st with authToken := some nt }
        { log with refreshCalls := log.refreshCalls ++ [some r] }
        { c with
            retried := true,
            headers := setHeader c.headers "Authorization" ("Bearer " ++ nt) } := by
  rw [handle_401_fresh srv fuel st log c d r hc hrt hr, hrefresh]
  have htr : truthy (some nt) = true := by simp [truthy, hnt]
  simp only [hrs, if_true, htok, htr, Option.getD_some]

/-- State and refresh-call log after a fresh 401 whose refresh succeeds: only
the access token is replaced (the stored refresh token is untouched), and
exactly one refresh call was appended. -/
lemma handle_401_success_run (srv : Server) (fuel : Nat) (st : AuthState)
    (log : ExecLog) (c : Config) (d : RespData) (r : String) (rresp : Response)
    (nt : String) (hc : c.retried = false) (hrt : st.refreshToken = some r)
    (hr : r ≠ "") (hrefresh : srv.refreshServe (some r) = some rresp)
    (hrs : isSuccess rresp.status = true) (htok : rresp.data.token = some nt)
    (hnt : nt ≠ "") :
    (handleAuthError srv fuel st log ⟨some ⟨401, d⟩, c⟩).state =
      { st with authToken := some nt } ∧
    (handleAuthError srv fuel st log ⟨some ⟨401, d⟩, c⟩).log.refreshCalls =
      log.refreshCalls ++ [some r] := by
  rw [handle_401_refresh_success srv fuel st log c d r rresp nt hc hrt hr hrefresh hrs
    htok hnt]
  have hrun := sendAuth_retried_run srv fuel { st with authToken := some nt }
    { log with refreshCalls := log.refreshCalls ++ [some r] }
    { c with
        retried := true,
        headers := setHeader c.headers "Authorization" ("Bearer " ++ nt) } rfl
  exact ⟨hrun.1, by rw [hrun.2.1]⟩

/-! Claim theorems. -/

/-- C3: for every original request, at most one refresh-triggered retry is
ever issued - a fresh request sends at most two configs to the transport and
makes at most one refresh call, whatever the server answers - and once the
retried flag is set, a further 401 on the retried request is propagated as-is
without another refresh or retry (the handler returns the error with state
and log untouched). -/
theorem at_most_one_retry (srv : Server) (st : AuthState) (config : Config)
    (fuel : Nat) (st2 : AuthState) (log : ExecLog) (c : Config) (d : RespData)
    (hc : c.retried = true) :
    (request srv st config).log.sentConfigs.length ≤ 2 ∧
    (request srv st config).log.refreshCalls.length ≤ 1 ∧
    handleAuthError srv fuel st2 log ⟨some ⟨401, d⟩, c⟩ =
      ⟨.rejected ⟨some ⟨401, d⟩, c⟩, st2, log⟩ := by
  refine ⟨?_, ?_, ?_⟩
  · simpa [request] using
      (sendAuth_growth srv 2 st ⟨[], []⟩ { config with retried := false }).1
  · simpa [request] using
      (sendAuth_growth srv 2 st ⟨[], []⟩ { config with retried := false }).2
  · exact handle_guard_false srv fuel st2 log _ ⟨401, d⟩ rfl (by simp [hc])

/-- C3 witness: the token-rotation server, a concrete request, and a concrete
already-retried 401. -/
theorem at_most_one_retry_witness :
    (request demoSrv demoSt balanceConfig).log.sentConfigs.length ≤ 2 ∧
    (request demoSrv demoSt balanceConfig).log.refreshCalls.length ≤ 1 ∧
    handleAuthError demoSrv 1 demoSt ⟨[], []⟩
        ⟨some ⟨401, {}⟩, { balanceConfig with retried := true }⟩ =
      ⟨.rejected ⟨some ⟨401, {}⟩, { balanceConfig with retried := true }⟩,
       demoSt, ⟨[], []⟩⟩ :=
  at_most_one_retry demoSrv demoSt balanceConfig 1 demoSt ⟨[], []⟩
    { balanceConfig with retried := true } {} rfl

/-- C6: the refresh operation never passes through the intercepted pipeline:
`refreshAuthToken` is a plain POST of the stored refresh token to the fixed
refresh endpoint (the `refreshServe` transport boundary, not a `sendAuth`
dispatch), and consequently a whole dispatch makes at most one refresh call
whatever the refresh endpoint answers - in particular a 401 from the refresh
call itself can never trigger another refresh. -/
theorem refresh_bypasses_intercepted_client (srv : Server) (fuel : Nat)
    (st : AuthState) (log : ExecLog) (c : Config) :
    refreshAuthToken srv st = srv.refreshServe (getRefreshToken st) ∧
    (sendAuth srv fuel st log c).log.refreshCalls.length ≤ log.refreshCalls.length + 1 :=
  ⟨rfl, (sendAuth_growth srv fuel st log c).2⟩

/-- C8: a 401 received when no (truthy) refresh token is stored, or on a
config already marked retried, is propagated as an error carrying the 401
with no refresh call made and the token state left unchanged. -/
theorem unresolved_401_propagates_unchanged (srv : Server) (fuel : Nat)
    (st : AuthState) (log : ExecLog) (config : Config) (d : RespData)
    (h401 : srv.serve (requestInterceptor st config) = some ⟨401, d⟩)
    (hcase : truthy st.refreshToken = false ∨ config.retried = true) :
    sendAuth srv (fuel + 1) st log config =
      ⟨.rejected ⟨some ⟨401, d⟩, requestInterceptor st config⟩, st,
       { log with sentConfigs := log.sentConfigs ++ [requestInterceptor st config] }⟩ := by
  rw [sendAuth_succ]
  simp only [h401]
  have hs401 : isSuccess (Response.mk 401 d).status = false := rfl
  simp only [hs401, Bool.false_eq_true, if_false]
  have hguard : ((Response.mk 401 d).status == 401 &&
      !(requestInterceptor st config).retried && truthy st.refreshToken) = false := by
    cases hcase with
    | inl h => simp [h]
    | inr h => simp [requestInterceptor_retried, h]
  exact handle_guard_false srv fuel st _ _ ⟨401, d⟩ rfl hguard

/-- C8 witness: a state holding an access token but no refresh token, against
a server answering 401. -/
theorem unresolved_401_propagates_unchanged_witness :
    sendAuth srv403 1 ⟨some "A1", none⟩ ⟨[], []⟩ balanceConfig =
      ⟨.rejected ⟨some ⟨401, {}⟩, requestInterceptor ⟨some "A1", none⟩ balanceConfig⟩,
       ⟨some "A1", none⟩,
       { sentConfigs := [requestInterceptor ⟨some "A1", none⟩ balanceConfig],
         refreshCalls := [] }⟩ :=
  unresolved_401_propagates_unchanged srv403 0 ⟨some "A1", none⟩ ⟨[], []⟩
    balanceConfig {} rfl (Or.inl rfl)

/-- C9: `logout()` clears the stored credential afterwards regardless of the
remote logout call's outcome - whatever the server does (resolve, reject,
network failure), the client ends Anonymous: `getAccessToken()` and
`getRefreshToken()` both return none. -/
theorem logout_always_clears (srv : Server) (st : AuthState) :
    getAuthToken (logout srv st).state = none ∧
    getRefreshToken (logout srv st).state = none := by
  unfold logout
  cases h : (request srv st logoutConfig).result with
  | resolved resp => simp [h, clearTokens, getAuthToken, getRefreshToken]
  | rejected e => simp [h, clearTokens, getAuthToken, getRefreshToken]

/-- C5: for every request sent through the client with no caller-supplied
Authorization header, the outgoing header is exactly `Bearer <token>` when a
(non-empty) access token is stored and absent when none is; moreover the
first config a request hands to the transport is exactly the interceptor's
output. -/
theorem bearer_header_matches_stored_token (srv : Server) (st : AuthState)
    (config : Config)
    (hnone : getHeader config.headers "Authorization" = none) :
    (∀ t, st.authToken = some t → t ≠ "" →
      getHeader (requestInterceptor st config).headers "Authorization" =
        some ("Bearer " ++ t)) ∧
    (st.authToken = none →
      getHeader (requestInterceptor st config).headers "Authorization" = none) ∧
    ((request srv st config).log.sentConfigs).head? = some (firstSent st config) := by
  refine ⟨?_, ?_, request_sent_head srv st config⟩
  · intro t ht hne
    unfold requestInterceptor
    have htr : truthy st.authToken = true := by rw [ht]; simp [truthy, hne]
    rw [htr]
    simp only [if_true]
    rw [ht]
    exact getHeader_setHeader_of_none config.headers "Authorization" _ hnone
  · intro h
    unfold requestInterceptor
    rw [h]
    simpa [truthy] using hnone

/-- C5 witness: with token A1 stored, the wallet-balance request goes out
with header `Bearer A1`; the first transport config is the interceptor's
output. -/
theorem bearer_header_matches_stored_token_witness :
    getHeader (requestInterceptor demoSt balanceConfig).headers "Authorization" =
      some "Bearer A1" ∧
    ((request demoSrv demoSt balanceConfig).log.sentConfigs).head? =
      some (firstSent demoSt balanceConfig) :=
  ⟨(bearer_header_matches_stored_token demoSrv demoSt balanceConfig rfl).1 "A1" rfl
      (by decide),
   (bearer_header_matches_stored_token demoSrv demoSt balanceConfig rfl).2.2⟩

/-- C1: a request that receives exactly one 401 while a refresh token is
stored, whose refresh succeeds (2xx with a token), is re-issued exactly once
carrying the new access token, and the caller observes the retried request's
response - never the original 401: the transport saw exactly the first send
and the retried send, one refresh call was made, and the result is the
retried response. -/
theorem retry_once_after_successful_refresh (srv : Server) (st : AuthState)
    (config : Config) (r nt : String) (d401 : RespData) (rresp resp2 : Response)
    (hrt : st.refreshToken = some r) (hr : r ≠ "")
    (h1 : srv.serve (firstSent st config) = some ⟨401, d401⟩)
    (hrefresh : srv.refreshServe (some r) = some rresp)
    (hrs : isSuccess rresp.status = true)
    (htok : rresp.data.token = some nt) (hnt : nt ≠ "")
    (h2 : srv.serve (secondSent st config nt) = some resp2)
    (h2s : isSuccess resp2.status = true) :
    (request srv st config).result = .resolved resp2 ∧
    (request srv st config).log.sentConfigs =
      [firstSent st config, secondSent st config nt] ∧
    (request srv st config).log.refreshCalls = [some r] ∧
    getAuthToken (request srv st config).state = some nt ∧
    getRefreshToken (request srv st config).state = some r := by
  have hc0 : (firstSent st config).retried = false := by
    simp [firstSent, requestInterceptor_retried]
  rw [request_401_step srv st config d401 h1,
    handle_401_refresh_success srv 1 st ⟨[firstSent st config], []⟩
      (firstSent st config) d401 r rresp nt hc0 hrt hr hrefresh hrs htok hnt]
  rw [sendAuth_succ]
  simp only [secondSent, retryConfig] at h2
  simp only [h2, h2s, if_true]
  exact ⟨trivial, rfl, rfl, rfl, hrt⟩

/-- C1 witness: the spec's token-rotation scenario - stored A1/R1, 401 on
the balance request, refresh rotates to A2, retried request answers 200. -/
theorem retry_once_after_successful_refresh_witness :
    (request demoSrv demoSt balanceConfig).result = .resolved ⟨200, { payload := "ok" }⟩ ∧
    (request demoSrv demoSt balanceConfig).log.sentConfigs =
      [firstSent demoSt balanceConfig, secondSent demoSt balanceConfig "A2"] ∧
    (request demoSrv demoSt balanceConfig).log.refreshCalls = [some "R1"] ∧
    getAuthToken (request demoSrv demoSt balanceConfig).state = some "A2" ∧
    getRefreshToken (request demoSrv demoSt balanceConfig).state = some "R1" :=
  retry_once_after_successful_refresh demoSrv demoSt balanceConfig "R1" "A2" {}
    ⟨200, { token := some "A2", refreshToken := some "R2" }⟩ ⟨200, { payload := "ok" }⟩
    rfl (by decide) (by decide) rfl (by decide) rfl (by decide) (by decide) (by decide)

/-- C2: evaluation of the code at the failing input. The refresh endpoint
answers 2xx with a body missing the expected token fields - a refresh that is
not "successful" by the code's own inner comment, i.e. a refresh failure in
the claim's (and the catch comment's "If refresh fails, clear tokens") sense -
yet the stored credential is NOT cleared: `getAccessToken()` afterwards still
returns A1, while the caller does observe the original 401. The token-missing
branch falls through the `if` past the catch, so `clearTokens()` is never
reached: the code contradicts its own documented failure handling. -/
theorem refresh_malformed_keeps_credential :
    getAuthToken (request srvMalformed demoSt balanceConfig).state = some "A1" ∧
    ¬ getAuthToken (request srvMalformed demoSt balanceConfig).state = none ∧
    getRefreshToken (request srvMalformed demoSt balanceConfig).state = some "R1" ∧
    (request srvMalformed demoSt balanceConfig).result =
      .rejected ⟨some ⟨401, {}⟩, { firstSent demoSt balanceConfig with retried := true }⟩ := by
  decide

/-- Full characterization of the three refresh-failure outcomes on a 401 with
a held refresh token: on a refresh that THROWS (network error or non-2xx
refresh response) the caller observes the original 401 and the credential is
cleared (Anonymous afterwards); but when the refresh resolves 2xx with a body
missing the token field, the caller still observes the original 401 while the
credential is left unchanged - only the thrown cases reach `clearTokens`. -/
theorem refresh_failure_behavior (srv : Server) (st : AuthState) (config : Config)
    (r : String) (d401 : RespData)
    (hrt : st.refreshToken = some r) (hr : r ≠ "")
    (h1 : srv.serve (firstSent st config) = some ⟨401, d401⟩) :
    (srv.refreshServe (some r) = none →
      (request srv st config).result =
        .rejected ⟨some ⟨401, d401⟩, { firstSent st config with retried := true }⟩ ∧
      (request srv st config).state = ⟨none, none⟩) ∧
    (∀ rr, srv.refreshServe (some r) = some rr → isSuccess rr.status = false →
      (request srv st config).result =
        .rejected ⟨some ⟨401, d401⟩, { firstSent st config with retried := true }⟩ ∧
      (request srv st config).state = ⟨none, none⟩) ∧
    (∀ rr, srv.refreshServe (some r) = some rr → isSuccess rr.status = true →
      truthy rr.data.token = false →
      (request srv st config).result =
        .rejected ⟨some ⟨401, d401⟩, { firstSent st config with retried := true }⟩ ∧
      (request srv st config).state = st) := by
  have hc0 : (firstSent st config).retried = false := by
    simp [firstSent, requestInterceptor_retried]
  rw [request_401_step srv st config d401 h1,
    handle_401_fresh srv 1 st ⟨[firstSent st config], []⟩ (firstSent st config) d401 r
      hc0 hrt hr]
  refine ⟨?_, ?_, ?_⟩
  · intro h
    simp only [h]
    constructor <;> trivial
  · intro rr h hf
    simp only [h, hf, Bool.false_eq_true, if_false]
    constructor <;> trivial
  · intro rr h hsucc ht
    simp only [h, hsucc, if_true, ht, Bool.false_eq_true, if_false]
    constructor <;> trivial

/-- Instance of the refresh-failure characterization: stored A1/R1, request
answered 401, refresh endpoint rejects with 403 - caller gets the original
401 and the client is Anonymous. -/
theorem refresh_failure_behavior_witness :
    (request srv403 demoSt balanceConfig).result =
      .rejected ⟨some ⟨401, {}⟩, { firstSent demoSt balanceConfig with retried := true }⟩ ∧
    (request srv403 demoSt balanceConfig).state = ⟨none, none⟩ :=
  (refresh_failure_behavior srv403 demoSt balanceConfig "R1" {} rfl (by decide)
      (by decide)).2.1 ⟨403, {}⟩ rfl (by decide)

/-- C4 counterexample: in the spec's own rotation scenario (refresh response
carries token A2 AND refreshToken R2, retried request succeeds), the stored
refresh token afterwards is still the old R1, not the R2 from the refresh
response - the handler assigns only `authToken` and never calls `setTokens`. -/
theorem refresh_response_refresh_token_ignored :
    (request demoSrv demoSt balanceConfig).result = .resolved ⟨200, { payload := "ok" }⟩ ∧
    getAuthToken (request demoSrv demoSt balanceConfig).state = some "A2" ∧
    getRefreshToken (request demoSrv demoSt balanceConfig).state = some "R1" ∧
    ¬ getRefreshToken (request demoSrv demoSt balanceConfig).state = some "R2" := by
  decide

/-- C4 (amended): on a successful refresh only the new access token is
extracted from the refresh response and stored (by direct assignment to the
token slot, not via `setCredential`); the refresh token carried by the refresh
response is ignored and the stored refresh token remains the pre-refresh one.
In particular after a refresh answering token A2, `getAccessToken()` returns
A2 while the stored refresh token is unchanged. -/
theorem refresh_stores_access_token_only (srv : Server) (st : AuthState)
    (config : Config) (r nt : String) (d401 : RespData) (rresp : Response)
    (hrt : st.refreshToken = some r) (hr : r ≠ "")
    (h1 : srv.serve (firstSent st config) = some ⟨401, d401⟩)
    (hrefresh : srv.refreshServe (some r) = some rresp)
    (hrs : isSuccess rresp.status = true)
    (htok : rresp.data.token = some nt) (hnt : nt ≠ "") :
    getAuthToken (request srv st config).state = some nt ∧
    getRefreshToken (request srv st config).state = some r := by
  have hc0 : (firstSent st config).retried = false := by
    simp [firstSent, requestInterceptor_retried]
  rw [request_401_step srv st config d401 h1]
  have H := handle_401_success_run srv 1 st ⟨[firstSent st config], []⟩
    (firstSent st config) d401 r rresp nt hc0 hrt hr hrefresh hrs htok hnt
  rw [H.1]
  exact ⟨rfl, hrt⟩

/-- C4 witness: the rotation scenario applied - A2 stored, R1 kept. -/
theorem refresh_stores_access_token_only_witness :
    getAuthToken (request demoSrv demoSt balanceConfig).state = some "A2" ∧
    getRefreshToken (request demoSrv demoSt balanceConfig).state = some "R1" :=
  refresh_stores_access_token_only demoSrv demoSt balanceConfig "R1" "A2" {}
    ⟨200, { token := some "A2", refreshToken := some "R2" }⟩
    rfl (by decide) (by decide) rfl (by decide) rfl (by decide)

/-- C7 counterexample: two requests that both received 401 (both errors built
before either handler ran, the realization of "around the same time"), whose
handlers then run in sequence - the schedule most favourable to coalescing:
the code makes TWO refresh calls to the remote endpoint, not exactly one. -/
theorem concurrent_401s_two_refresh_calls :
    ((handleTwo demoSrv 1 demoSt e1c e2c).2).log.refreshCalls.length = 2 ∧
    ¬ ((handleTwo demoSrv 1 demoSt e1c e2c).2).log.refreshCalls.length = 1 := by
  decide

/-- C7 (amended): the code does not coalesce concurrent refreshes: each
401-failed request whose refresh succeeds triggers its own refresh call, so
two requests that both received 401 before either handler ran produce exactly
two refresh calls to the remote endpoint (each posting the same stored
refresh token), even in the serialization most favourable to coalescing. -/
theorem concurrent_401s_one_refresh_each (srv : Server) (fuel : Nat)
    (st : AuthState) (r nt : String) (d1 d2 : RespData) (c1 c2 : Config)
    (rresp : Response)
    (hrt : st.refreshToken = some r) (hr : r ≠ "")
    (hc1 : c1.retried = false) (hc2 : c2.retried = false)
    (hrefresh : srv.refreshServe (some r) = some rresp)
    (hrs : isSuccess rresp.status = true)
    (htok : rresp.data.token = some nt) (hnt : nt ≠ "") :
    ((handleTwo srv fuel st ⟨some ⟨401, d1⟩, c1⟩ ⟨some ⟨401, d2⟩, c2⟩).1).log.refreshCalls =
      [some r] ∧
    ((handleTwo srv fuel st ⟨some ⟨401, d1⟩, c1⟩ ⟨some ⟨401, d2⟩, c2⟩).2).log.refreshCalls =
      [some r, some r] := by
  have H1 := handle_401_success_run srv fuel st ⟨[], []⟩ c1 d1 r rresp nt hc1 hrt hr
    hrefresh hrs htok hnt
  have hrt1 : (handleAuthError srv fuel st ⟨[], []⟩ ⟨some ⟨401, d1⟩, c1⟩).state.refreshToken =
      some r := by rw [H1.1]; exact hrt
  have H2 := handle_401_success_run srv fuel
    (handleAuthError srv fuel st ⟨[], []⟩ ⟨some ⟨401, d1⟩, c1⟩).state
    (handleAuthError srv fuel st ⟨[], []⟩ ⟨some ⟨401, d1⟩, c1⟩).log
    c2 d2 r rresp nt hc2 hrt1 hr hrefresh hrs htok hnt
  constructor
  · show (handleAuthError srv fuel st ⟨[], []⟩ ⟨some ⟨401, d1⟩, c1⟩).log.refreshCalls =
      [some r]
    rw [H1.2]
    rfl
  · show (handleAuthError srv fuel
        (handleAuthError srv fuel st ⟨[], []⟩ ⟨some ⟨401, d1⟩, c1⟩).state
        (handleAuthError srv fuel st ⟨[], []⟩ ⟨some ⟨401, d1⟩, c1⟩).log
        ⟨some ⟨401, d2⟩, c2⟩).log.refreshCalls = [some r, some r]
    rw [H2.2, H1.2]
    rfl

/-- C7 witness: the two concrete 401-failed requests against the rotation
server - one refresh call each, two in total. -/
theorem concurrent_401s_one_refresh_each_witness :
    ((handleTwo demoSrv 1 demoSt e1c e2c).1).log.refreshCalls = [some "R1"] ∧
    ((handleTwo demoSrv 1 demoSt e1c e2c).2).log.refreshCalls = [some "R1", some "R1"] :=
  concurrent_401s_one_refresh_each demoSrv 1 demoSt "R1" "A2" {} {}
    (firstSent demoSt balanceConfig) (firstSent demoSt profileConfig)
    ⟨200, { token := some "A2", refreshToken := some "R2" }⟩
    rfl (by decide) (by decide) (by decide) rfl (by decide) rfl (by decide)

/-- C10 counterexample: `login` posts through the intercepted client, so with
a stale credential stored the login request DOES carry an Authorization
header - `Bearer stale` - contradicting "no Authorization header even if a
stale credential is stored". -/
theorem login_sends_stale_bearer :
    ((login srvLoginOk ⟨some "stale", some "R"⟩ "u" "p").log.sentConfigs.map
      fun c => getHeader c.headers "Authorization") = [some "Bearer stale"] ∧
    ¬ ((login srvLoginOk ⟨some "stale", some "R"⟩ "u" "p").log.sentConfigs.map
      fun c => getHeader c.headers "Authorization") = [none] := by
  decide

/-- C10 (amended): `login` performs the POST to the login path through the
intercepted client, so the login request carries `Bearer <storedToken>`
whenever an access token is stored and no Authorization header only when
Anonymous; on a successful response carrying both token fields it stores them
via `setTokens`, and the caller receives the response body. -/
theorem login_through_intercepted_client (srv : Server) (st : AuthState)
    (u p t rt : String) (resp : Response)
    (hserve : srv.serve (firstSent st (loginConfig u p)) = some resp)
    (hok : isSuccess resp.status = true)
    (ht : resp.data.token = some t) (htt : t ≠ "")
    (hrt : resp.data.refreshToken = some rt) (hrtt : rt ≠ "") :
    (login srv st u p).result = .ok resp.data ∧
    (login srv st u p).state = ⟨some t, some rt⟩ ∧
    ((login srv st u p).log.sentConfigs.map
      fun c => getHeader c.headers "Authorization") =
      [if truthy st.authToken then some ("Bearer " ++ st.authToken.getD "") else none] := by
  have hreq : request srv st (loginConfig u p) =
      ⟨.resolved resp, st, ⟨[firstSent st (loginConfig u p)], []⟩⟩ := by
    unfold request
    rw [sendAuth_succ]
    simp only [firstSent] at hserve
    simp only [hserve, hok, if_true]
    rfl
  unfold login
  rw [hreq]
  have htr : (truthy (some t) && truthy (some rt)) = true := by
    simp [truthy, htt, hrtt]
  simp only [ht, hrt, htr, if_true, Option.getD_some]
  refine ⟨by trivial, by trivial, ?_⟩
  show [getHeader (firstSent st (loginConfig u p)).headers "Authorization"] = _
  unfold firstSent requestInterceptor
  by_cases hta : truthy st.authToken
  · simp only [hta, if_true]
    rw [getHeader_setHeader_of_none]
    rfl
  · simp only [hta, Bool.false_eq_true, if_false]
    rfl

/-- C10 witness: logging in from the Anonymous state against a server
answering a token pair - no Authorization header sent, tokens stored. -/
theorem login_through_intercepted_client_witness :
    (login srvLoginOk ⟨none, none⟩ "u" "p").result =
      .ok { token := some "T", refreshToken := some "RT" } ∧
    (login srvLoginOk ⟨none, none⟩ "u" "p").state = ⟨some "T", some "RT"⟩ ∧
    ((login srvLoginOk ⟨none, none⟩ "u" "p").log.sentConfigs.map
      fun c => getHeader c.headers "Authorization") = [none] :=
  login_through_intercepted_client srvLoginOk ⟨none, none⟩ "u" "p" "T" "RT"
    ⟨200, { token := some "T", refreshToken := some "RT" }⟩
    rfl (by decide) rfl (by decide) rfl (by decide)

end PiClient
